import Mathlib

/-
  Verification of the go-core pub/sub layer (kafka and rabbitmq packages).

  Shallow embedding conventions:
  - Go byte slices ([]byte) are lists of bytes (Msg := List Nat); the zero
    value nil of []byte is the empty list.
  - context.Context is reduced to the only part this code inspects: whether
    the context is (already) canceled.  The contexts in the modelled traces
    are immutable: nobody cancels concurrently.
  - Go maps keyed by strings are association lists with replace-on-insert.
  - Go channels created by the in-memory rabbitmq backend live in a heap
    (List BufChan) addressed by ChanId, so that aliasing between the topic
    registry and a consumer goroutine that captured the channel is explicit.
  - External collaborators (the kafka-go writer network call, the otel
    propagator carrier, the amqp dial function) enter as parameters, exactly
    at the seams the source itself makes injectable (writerFactoryFunc,
    dialFunc).
-/

namespace GoCore

/-- Go byte slice. The zero value nil is the empty list. -/
abbrev Msg := List Nat

/-- The fragment of context.Context this code inspects: ctx.Err() != nil
    iff canceled is true. -/
structure Ctx where
  canceled : Bool
deriving DecidableEq

/-- Association-list lookup, modelling Go map indexing m[k]. -/
def alookup {α : Type} : List (String × α) → String → Option α
  | [], _ => none
  | (k', v) :: rest, k => if k' == k then some v else alookup rest k

/-- Association-list insert, modelling Go map assignment m[k] = v. -/
def ainsert {α : Type} : List (String × α) → String → α → List (String × α)
  | [], k, v => [(k, v)]
  | (k', v') :: rest, k, v =>
      if k' == k then (k', v) :: rest else (k', v') :: ainsert rest k v

/-! ## In-memory rabbitmq backend (src/unnamed/part_011)

The demonstration backend: RabbitMQ holds a map from queue name to a Go
channel make(chan []byte, 100).  Channels are modelled in a heap so a
consumer goroutine keeps its reference across Close(). -/

/-- A Go buffered channel of byte slices (capacity 100 in the source). -/
structure BufChan where
  buffer : List Msg
  isClosed : Bool
deriving DecidableEq

/-- Index of a channel in the heap of channels ever created. -/
abbrev ChanId := Nat

/-- State of the in-memory RabbitMQ broker from part_011. -/
structure RMQ where
  chans : List BufChan
  queues : List (String × ChanId)
  otelEnabled : Bool
deriving DecidableEq

/-- New (part_011 lines 27-40): the in-memory constructor never fails. -/
def RMQ.new (otelEnabled : Bool) : RMQ :=
  { chans := [], queues := [], otelEnabled := otelEnabled }

/-- Dereference a channel id in the heap. The default is never reached on
    ids handed out by getOrCreateQueue. -/
def RMQ.getChan (r : RMQ) (id : ChanId) : BufChan :=
  r.chans.getD id { buffer := [], isClosed := true }

/-- Overwrite a channel in the heap. -/
def RMQ.setChan (r : RMQ) (id : ChanId) (c : BufChan) : RMQ :=
  { r with chans := r.chans.set id c }

/-- The lazy get-or-create of part_011 lines 48-54 and 68-74: return the
    registered channel for the queue, or make a fresh one and register it. -/
def RMQ.getOrCreateQueue (r : RMQ) (queue : String) : ChanId × RMQ :=
  match alookup r.queues queue with
  | some id => (id, r)
  | none =>
      let id := r.chans.length
      (id, { r with chans := r.chans ++ [{ buffer := [], isClosed := false }],
                    queues := ainsert r.queues queue id })

/-- Outcome of RMQ.Publish. -/
inductive PubResult
  | canceled
  | ok
  | wouldBlock
deriving DecidableEq

/-- Publish (part_011 lines 43-63).  The first branch is the early
    ctx.Err() check; after it the select has a non-canceled context in this
    model, so only the buffered send can fire: it succeeds iff the buffer
    (capacity 100) has room, otherwise the call is suspended (wouldBlock)
    with the registry already updated but nothing sent. -/
def RMQ.Publish (r : RMQ) (ctx : Ctx) (queue : String) (body : Msg) :
    PubResult × RMQ :=
  if ctx.canceled then (.canceled, r)
  else
    let p := r.getOrCreateQueue queue
    let c := p.2.getChan p.1
    if c.buffer.length < 100 then
      (.ok, p.2.setChan p.1 { c with buffer := c.buffer ++ [body] })
    else
      (.wouldBlock, p.2)

/-- Consume registration (part_011 lines 66-75 and 87-89): resolve or
    create the queue channel and hand its id to the spawned goroutine; the
    returned unbuffered out channel is driven by consumerStep below. -/
def RMQ.Consume (r : RMQ) (_ctx : Ctx) (queue : String) : ChanId × RMQ :=
  r.getOrCreateQueue queue

/-- What one iteration of the consumer goroutine does. -/
inductive LoopAction
  | forward (m : Msg) (after : BufChan)
  | stop
  | block
deriving DecidableEq

/-- One iteration of the goroutine of part_011 lines 77-86:
    select \x7b case msg := <-q: out <- msg; case <-ctx.Done(): return \x7d.
    When the context is canceled and the channel receive is also ready, Go
    picks a ready case nondeterministically; the model resolves that tie in
    favor of cancellation (the claims only exercise deterministic cases).
    A receive from a closed, drained Go channel is immediately ready and
    yields the zero value nil, modelled as the empty byte list; the code
    does not inspect the ok flag of the receive. -/
def consumerStep (ctx : Ctx) (c : BufChan) : LoopAction :=
  if ctx.canceled then .stop
  else
    match c.buffer with
    | m :: rest => .forward m { c with buffer := rest }
    | [] => if c.isClosed then .forward [] c else .block

/-- Close (part_011 lines 92-101): close(ch) every registered channel,
    delete every key, log, return nil. -/
def RMQ.Close (r : RMQ) : Option String × RMQ :=
  (none,
   { r with
     chans := (List.range r.chans.length).map (fun i =>
       if r.queues.any (fun p => p.2 == i) then
         { r.getChan i with isClosed := true }
       else r.getChan i),
     queues := [] })

/-! ## Kafka backend (src/unnamed/part_002)

Writers and readers are external kafka-go handles; the model tracks only
their identity (a fresh HandleId per factory call) and the registry, which
is all the registry claims are about.  The network write outcome and the
otel trace carrier are injected parameters. -/

/-- Identity of a writer/reader handle created by the factory functions. -/
abbrev HandleId := Nat

/-- State of the Kafka broker wrapper from part_002. -/
structure Kafka where
  writers : List (String × HandleId)
  readers : List (String × HandleId)
  nextHandle : Nat
  brokers : List String
  otelEnabled : Bool
deriving DecidableEq

/-- New (part_002 lines 70-87): splits the broker list and starts with
    empty registries; it performs no dial and never fails. -/
def Kafka.new (brokersStr : String) (otelEnabled : Bool) : Kafka :=
  { writers := [], readers := [], nextHandle := 0,
    brokers := brokersStr.splitOn (","), otelEnabled := otelEnabled }

/-- The constructor as seen by callers: always .ok (part_002 returns a nil
    error unconditionally). -/
def KafkaNew (brokersStr : String) (otelEnabled : Bool) :
    Except String Kafka :=
  .ok (Kafka.new brokersStr otelEnabled)

/-- Writer lookup of Publish (part_002 lines 100-106): reuse the stored
    handle or have writerFactoryFunc make a fresh one and store it. -/
def Kafka.getOrCreateWriter (k : Kafka) (topic : String) : HandleId × Kafka :=
  match alookup k.writers topic with
  | some w => (w, k)
  | none =>
      (k.nextHandle,
       { k with writers := ainsert k.writers topic k.nextHandle,
                nextHandle := k.nextHandle + 1 })

/-- Reader lookup of Consume (part_002 lines 134-140), same pattern. -/
def Kafka.getOrCreateReader (k : Kafka) (topic : String) : HandleId × Kafka :=
  match alookup k.readers topic with
  | some r => (r, k)
  | none =>
      (k.nextHandle,
       { k with readers := ainsert k.readers topic k.nextHandle,
                nextHandle := k.nextHandle + 1 })

/-- Observable interaction with a backend writer handle. -/
inductive KEffect
  | wrote (w : HandleId) (body : Msg) (headers : List (String × String))
deriving DecidableEq

/-- Outcome of Kafka.Publish. -/
inductive KPubResult
  | canceled
  | writeErr (e : String)
  | ok
deriving DecidableEq

/-- Publish (part_002 lines 90-122).  The otel span and propagator are
    external collaborators: the injected trace carrier arrives as carrier
    and the network outcome of w.WriteMessages as wres.  The effect list
    records every message handed to a writer handle. -/
def Kafka.Publish (k : Kafka) (ctx : Ctx) (topic : String) (body : Msg)
    (wres : Except String Unit) (carrier : List (String × String)) :
    KPubResult × Kafka × List KEffect :=
  if ctx.canceled then (.canceled, k, [])
  else
    let p := k.getOrCreateWriter topic
    let headers := if k.otelEnabled then carrier else []
    match wres with
    | .error e => (.writeErr (("write message: ") ++ e), p.2, [.wrote p.1 body headers])
    | .ok _ => (.ok, p.2, [.wrote p.1 body headers])

/-- Consume registration (part_002 lines 125-146): resolve or create the
    reader handle; the receive loop is driven by the backend reader. -/
def Kafka.Consume (k : Kafka) (_ctx : Ctx) (topic : String) :
    HandleId × Kafka :=
  k.getOrCreateReader topic

/-- Close (part_002 lines 167-180): best-effort close of every handle
    (errors discarded), then fresh empty maps; always returns nil. -/
def Kafka.Close (k : Kafka) : Option String × Kafka :=
  (none, { k with writers := [], readers := [] })

/-! ## Generic JSON codec layer (part_002 lines 183-210; the rabbitmq
package in src/rabbitmq/channel_close_test.go lines 252-280 carries the
same code modulo the broker type).  json.Marshal and json.Unmarshal are
external: they enter as the marshal and unmarshal parameters. -/

/-- Outcome of PublishJSON. -/
inductive KJPubResult
  | marshalErr (e : String)
  | pub (r : KPubResult)
deriving DecidableEq

/-- PublishJSON (part_002 lines 183-189): marshal, and on failure return
    the wrapped error at once; otherwise delegate to Publish. -/
def Kafka.PublishJSON {α : Type} (marshal : α → Except String Msg)
    (k : Kafka) (ctx : Ctx) (topic : String) (v : α)
    (wres : Except String Unit) (carrier : List (String × String)) :
    KJPubResult × Kafka × List KEffect :=
  match marshal v with
  | .error e => (.marshalErr (("marshal message: ") ++ e), k, [])
  | .ok b =>
      let p := k.Publish ctx topic b wres carrier
      (.pub p.1, p.2.1, p.2.2)

/-- Event visible on the typed output channel of ConsumeJSON. -/
inductive JEvent (α : Type)
  | emit (v : α)
  | closedOut

/-- The goroutine of ConsumeJSON (part_002 lines 192-210) as a function of
    the byte messages delivered on byteCh before it closes: each message is
    unmarshalled; a failure is logged and skipped (continue); a success is
    forwarded; when byteCh closes the range ends and defer close(out)
    emits closedOut. -/
def consumeJSONEvents {α : Type} (unmarshal : Msg → Except String α) :
    List Msg → List (JEvent α)
  | [] => [.closedOut]
  | b :: rest =>
      match unmarshal b with
      | .error _ => consumeJSONEvents unmarshal rest
      | .ok v => .emit v :: consumeJSONEvents unmarshal rest

/-! ## Broker-backed rabbitmq constructor
(src/rabbitmq/channel_close_test.go lines 117-156) -/

/-- An amqp connection as New uses it: its Channel() call either yields a
    channel handle or fails. -/
structure AmqpConn where
  chanResult : Except String Nat

/-- Externally visible actions of the constructor. -/
inductive NewEffect
  | dialed (url : List Char)
  | closedConn
deriving DecidableEq

/-- The configuration New resolves (URLs are Go strings, i.e. byte
    strings, modelled as character lists). -/
structure RConfig where
  otelEnabled : Bool
  url : List Char
  enableTLS : Bool
  autoAck : Bool

/-- A successfully constructed broker value. -/
structure RBroker where
  channelH : Nat
  url : List Char
  otelEnabled : Bool
  autoAck : Bool
deriving DecidableEq

/-- The strings.HasPrefix / strings.TrimPrefix rewrite of New (lines
    130-132): with the TLS flag set, an amqp:// URL becomes amqps://. -/
def cfgURL (cfg : RConfig) : List Char :=
  if cfg.enableTLS && (("amqp://").data.isPrefixOf cfg.url) then
    ("amqps://").data ++
      (if ("amqp://").data.isPrefixOf cfg.url then
        cfg.url.drop (("amqp://").data.length)
      else cfg.url)
  else cfg.url

/-- New (channel_close_test.go lines 117-156): resolve the URL, dial it
    through the injected dialFunc, open a channel; on dial failure return
    the wrapped error, on channel failure close the connection first and
    return the wrapped error; otherwise return the broker value. -/
def RabbitMQNew (cfg : RConfig)
    (dial : List Char → Except String AmqpConn) :
    Except String RBroker × List NewEffect :=
  let url := cfgURL cfg
  match dial url with
  | .error e => (.error (("connect rabbitmq: ") ++ e), [.dialed url])
  | .ok conn =>
      match conn.chanResult with
      | .error e => (.error (("open channel: ") ++ e), [.dialed url, .closedConn])
      | .ok ch =>
          (.ok { channelH := ch, url := url,
                 otelEnabled := cfg.otelEnabled, autoAck := cfg.autoAck },
           [.dialed url])

/-! ## Claims -/

/-- C1: Publish called with an already-canceled context returns a
    distinguishable cancellation error and performs no send: the in-memory
    backend neither touches its registry nor any buffer, and the kafka
    backend neither touches its registry nor emits a write to any writer
    handle. -/
theorem publish_canceled_no_send (r : RMQ) (k : Kafka) (ctx : Ctx)
    (topic : String) (body : Msg) (wres : Except String Unit)
    (carrier : List (String × String)) (h : ctx.canceled = true) :
    r.Publish ctx topic body = (.canceled, r) ∧
    k.Publish ctx topic body wres carrier = (.canceled, k, []) := by
  constructor
  · simp [RMQ.Publish, h]
  · simp [Kafka.Publish, h]

/-- Witness for publish_canceled_no_send at a concrete canceled context. -/
theorem publish_canceled_no_send_inst :
    (RMQ.new false).Publish ⟨true⟩ ("q") [104, 105] = (.canceled, RMQ.new false) ∧
    (Kafka.new ("localhost:9092") false).Publish ⟨true⟩ ("q") [104, 105]
      (.ok ()) [] = (.canceled, Kafka.new ("localhost:9092") false, []) :=
  publish_canceled_no_send (RMQ.new false) (Kafka.new ("localhost:9092") false)
    ⟨true⟩ ("q") [104, 105] (.ok ()) [] rfl

/-- C3: in-process round trip: publishing body b to topic T on a fresh
    broker succeeds, and a consumer then registered on T receives exactly
    b (the next loop iteration forwards b byte-for-byte, and the one after
    that blocks because the buffer holds nothing further). -/
theorem inproc_round_trip (b : Msg) (T : String) :
    (((RMQ.new false).Publish ⟨false⟩ T b).1 = .ok) ∧
    (let r1 := ((RMQ.new false).Publish ⟨false⟩ T b).2
     let p := r1.Consume ⟨false⟩ T
     consumerStep ⟨false⟩ (p.2.getChan p.1) =
        .forward b { buffer := [], isClosed := false } ∧
     consumerStep ⟨false⟩ { buffer := [], isClosed := false } = .block) := by
  refine ⟨?_, ?_, ?_⟩
  · simp [RMQ.Publish, RMQ.getOrCreateQueue, alookup, RMQ.getChan, RMQ.setChan,
          RMQ.new]
  · simp [RMQ.Publish, RMQ.getOrCreateQueue, alookup, ainsert, RMQ.getChan,
          RMQ.setChan, RMQ.new, RMQ.Consume, consumerStep]
  · simp [consumerStep]

/-- Helper: dereferencing the position right after a list names the freshly
    appended element. -/
theorem getD_append_length {α : Type} (l : List α) (x d : α) :
    (l ++ [x]).getD l.length d = x := by
  induction l with
  | nil => rfl
  | cons a t ih => simp [ih]

/-- Helper: a list is a Boolean prefix of itself followed by anything. -/
theorem isPrefixOf_append_self {α : Type} [BEq α] [LawfulBEq α]
    (l r : List α) : l.isPrefixOf (l ++ r) = true := by
  induction l with
  | nil => simp [List.isPrefixOf]
  | cons a t ih => simp [List.isPrefixOf, ih]

/-- C2 (code bug): on the in-memory backend, Close() does return nil (also
    on a broker whose topics were never used), but a consumer channel
    returned by Consume before Close is not closed afterwards: the
    goroutine's receive on the closed buffer channel is immediately ready
    with the zero value nil, so the loop forwards an empty message and
    keeps running instead of stopping (the code never inspects the ok flag
    of the receive), contradicting the claim. -/
theorem close_leaves_consumer_running :
    ((RMQ.new false).Close).1 = none ∧
    (let p := (RMQ.new false).Consume ⟨false⟩ ("q")
     let q := p.2.Close
     q.1 = none ∧
     (q.2.getChan p.1).isClosed = true ∧
     consumerStep ⟨false⟩ (q.2.getChan p.1) = .forward [] (q.2.getChan p.1) ∧
     consumerStep ⟨false⟩ (q.2.getChan p.1) ≠ .stop) := by
  decide

/-- C4: JSON round trip.  For a value v whose marshalling succeeds with
    bytes bv and whose unmarshalling inverts it, PublishJSON succeeds,
    hands exactly bv to the resolved writer handle, and a typed consumer
    whose byte channel delivers that payload emits exactly v and then
    closes. -/
theorem json_round_trip {α : Type} (marshal : α → Except String Msg)
    (unmarshal : Msg → Except String α) (k : Kafka) (ctx : Ctx)
    (topic : String) (v : α) (bv : Msg) (carrier : List (String × String))
    (hm : marshal v = .ok bv) (hu : unmarshal bv = .ok v)
    (hc : ctx.canceled = false) :
    (Kafka.PublishJSON marshal k ctx topic v (.ok ()) carrier).1 =
      .pub .ok ∧
    (Kafka.PublishJSON marshal k ctx topic v (.ok ()) carrier).2.2 =
      [.wrote (k.getOrCreateWriter topic).1 bv
         (if k.otelEnabled then carrier else [])] ∧
    consumeJSONEvents unmarshal [bv] = [.emit v, .closedOut] := by
  refine ⟨?_, ?_, ?_⟩
  · simp [Kafka.PublishJSON, hm, Kafka.Publish, hc]
  · simp [Kafka.PublishJSON, hm, Kafka.Publish, hc]
  · simp [consumeJSONEvents, hu]

/-- Witness for json_round_trip with the codec that writes a number as a
    singleton byte list. -/
theorem json_round_trip_inst :
    (Kafka.PublishJSON (fun n : Nat => Except.ok [n])
        (Kafka.new ("b") false) ⟨false⟩ ("t") 7 (.ok ()) []).1 =
      .pub .ok ∧
    (Kafka.PublishJSON (fun n : Nat => Except.ok [n])
        (Kafka.new ("b") false) ⟨false⟩ ("t") 7 (.ok ()) []).2.2 =
      [.wrote 0 [7] []] ∧
    consumeJSONEvents
        (fun m => match m with | [n] => Except.ok n | _ => Except.error ("bad"))
        [[7]] = [.emit 7, .closedOut] := by
  have h := json_round_trip (fun n : Nat => Except.ok [n])
    (fun m => match m with | [n] => Except.ok n | _ => Except.error ("bad"))
    (Kafka.new ("b") false) ⟨false⟩ ("t") 7 [7] [] rfl rfl rfl
  exact ⟨h.1, by simpa [Kafka.new, Kafka.getOrCreateWriter, alookup] using h.2.1,
         h.2.2⟩

/-- C5: a marshal failure makes PublishJSON return the wrapped marshal
    error immediately: the broker state is unchanged and no write effect is
    emitted (whatever the network would have answered), i.e. Publish is
    never called. -/
theorem publish_json_marshal_failure {α : Type}
    (marshal : α → Except String Msg) (k : Kafka) (ctx : Ctx)
    (topic : String) (v : α) (e : String) (wres : Except String Unit)
    (carrier : List (String × String)) (h : marshal v = .error e) :
    Kafka.PublishJSON marshal k ctx topic v wres carrier =
      (.marshalErr (("marshal message: ") ++ e), k, []) := by
  simp [Kafka.PublishJSON, h]

/-- Witness for publish_json_marshal_failure with an always-failing
    marshaller. -/
theorem publish_json_marshal_failure_inst :
    Kafka.PublishJSON (fun _ : Nat => Except.error ("boom"))
        (Kafka.new ("b") false) ⟨false⟩ ("t") 3 (.ok ()) [] =
      (.marshalErr ("marshal message: boom"), Kafka.new ("b") false, []) :=
  publish_json_marshal_failure (fun _ : Nat => Except.error ("boom"))
    (Kafka.new ("b") false) ⟨false⟩ ("t") 3 ("boom") (.ok ()) [] rfl

/-- C6: a message that fails to unmarshal is skipped by the ConsumeJSON
    loop: nothing is emitted for it and the typed channel is not closed,
    the loop continues, a subsequent valid message is still delivered, and
    in general the typed channel emits only decoded values and closes
    exactly once, exactly when the byte channel closes. -/
theorem consume_json_skips_bad {α : Type}
    (unmarshal : Msg → Except String α) (bad good : Msg) (e : String)
    (v : α) (hb : unmarshal bad = .error e) (hg : unmarshal good = .ok v) :
    (∀ rest, consumeJSONEvents unmarshal (bad :: rest) =
       consumeJSONEvents unmarshal rest) ∧
    (∀ rest, consumeJSONEvents unmarshal (bad :: good :: rest) =
       .emit v :: consumeJSONEvents unmarshal rest) ∧
    (∀ msgs, ∃ vs : List α, consumeJSONEvents unmarshal msgs =
       (vs.map JEvent.emit) ++ [.closedOut]) := by
  refine ⟨fun rest => by simp [consumeJSONEvents, hb],
          fun rest => by simp [consumeJSONEvents, hb, hg], ?_⟩
  intro msgs
  induction msgs with
  | nil => exact ⟨[], rfl⟩
  | cons m rest ih =>
      obtain ⟨vs, hvs⟩ := ih
      cases hm : unmarshal m with
      | error e' => exact ⟨vs, by simp [consumeJSONEvents, hm, hvs]⟩
      | ok w => exact ⟨w :: vs, by simp [consumeJSONEvents, hm, hvs]⟩

/-- Witness for consume_json_skips_bad: a malformed message followed by a
    decodable one yields exactly the decoded value and then the close. -/
theorem consume_json_skips_bad_inst :
    consumeJSONEvents
        (fun m => match m with | [n] => Except.ok n | _ => Except.error ("bad"))
        [[], [7]] = [.emit 7, .closedOut] := by
  have h := consume_json_skips_bad
    (fun m => match m with | [n] => Except.ok n | _ => Except.error ("bad"))
    [] [7] ("bad") 7 rfl rfl
  exact h.2.1 []

/-- C7: registry memoization.  Once a handle is stored for a topic, the
    lookup paths of Publish and Consume resolve that same handle and leave
    the mapping untouched, for the kafka writer and reader registries and
    for the in-memory queue registry alike. -/
theorem registry_memoization (k : Kafka) (r : RMQ) (t : String)
    (w rd : HandleId) (id : ChanId) (ctx : Ctx) (body : Msg)
    (wres : Except String Unit) (carrier : List (String × String))
    (hw : alookup k.writers t = some w) (hr : alookup k.readers t = some rd)
    (hq : alookup r.queues t = some id) (hc : ctx.canceled = false) :
    k.getOrCreateWriter t = (w, k) ∧
    k.getOrCreateReader t = (rd, k) ∧
    (k.Publish ctx t body wres carrier).2.1.writers = k.writers ∧
    (k.Consume ctx t).2.readers = k.readers ∧
    r.getOrCreateQueue t = (id, r) ∧
    (r.Publish ctx t body).2.queues = r.queues := by
  refine ⟨?_, ?_, ?_, ?_, ?_, ?_⟩
  · simp [Kafka.getOrCreateWriter, hw]
  · simp [Kafka.getOrCreateReader, hr]
  · cases wres <;> simp [Kafka.Publish, hc, Kafka.getOrCreateWriter, hw]
  · simp [Kafka.Consume, Kafka.getOrCreateReader, hr]
  · simp [RMQ.getOrCreateQueue, hq]
  · by_cases hlen : (r.getChan id).buffer.length < 100 <;>
      simp [RMQ.Publish, hc, RMQ.getOrCreateQueue, hq, RMQ.setChan, hlen]

/-- Witness for registry_memoization on brokers that already hold handles
    for topic t. -/
theorem registry_memoization_inst :
    (Kafka.mk [(("t"), 0)] [(("t"), 1)] 2 [("b")] false).getOrCreateWriter ("t") =
      (0, Kafka.mk [(("t"), 0)] [(("t"), 1)] 2 [("b")] false) ∧
    (RMQ.mk [{ buffer := [], isClosed := false }] [(("t"), 0)] false).getOrCreateQueue ("t") =
      (0, RMQ.mk [{ buffer := [], isClosed := false }] [(("t"), 0)] false) := by
  have h := registry_memoization
    (Kafka.mk [(("t"), 0)] [(("t"), 1)] 2 [("b")] false)
    (RMQ.mk [{ buffer := [], isClosed := false }] [(("t"), 0)] false)
    ("t") 0 1 0 ⟨false⟩ [5] (.ok ()) [] (by decide) (by decide) (by decide) rfl
  exact ⟨h.1, h.2.2.2.2.1⟩

/-- C8: constructor setup failures are fatal.  A dial failure makes New
    return only the wrapped error; a channel-open failure makes New close
    the already-dialed connection and return only the wrapped error; and
    the kafka constructor, which needs no connection, always succeeds. -/
theorem constructor_setup_failures (cfg : RConfig)
    (dial : List Char → Except String AmqpConn) (conn : AmqpConn)
    (e : String) :
    (dial (cfgURL cfg) = .error e →
       RabbitMQNew cfg dial =
         (.error (("connect rabbitmq: ") ++ e), [.dialed (cfgURL cfg)])) ∧
    (dial (cfgURL cfg) = .ok conn → conn.chanResult = .error e →
       RabbitMQNew cfg dial =
         (.error (("open channel: ") ++ e),
          [.dialed (cfgURL cfg), .closedConn])) ∧
    (∀ s b, KafkaNew s b = .ok (Kafka.new s b)) := by
  refine ⟨fun h => ?_, fun h1 h2 => ?_, fun s b => rfl⟩
  · simp [RabbitMQNew, h]
  · simp [RabbitMQNew, h1, h2]

/-- Witness for constructor_setup_failures: a refused dial and a dial
    whose channel opening fails. -/
theorem constructor_setup_failures_inst :
    RabbitMQNew ⟨false, ("amqp://h").data, false, true⟩
        (fun _ => Except.error ("refused")) =
      (.error ("connect rabbitmq: refused"),
       [.dialed (("amqp://h").data)]) ∧
    RabbitMQNew ⟨false, ("amqp://h").data, false, true⟩
        (fun _ => Except.ok ⟨Except.error ("nochan")⟩) =
      (.error ("open channel: nochan"),
       [.dialed (("amqp://h").data), .closedConn]) := by
  have h1 := (constructor_setup_failures ⟨false, ("amqp://h").data, false, true⟩
    (fun _ => Except.error ("refused")) ⟨Except.error ("nochan")⟩ ("refused")).1 rfl
  have h2 := (constructor_setup_failures ⟨false, ("amqp://h").data, false, true⟩
    (fun _ => Except.ok ⟨Except.error ("nochan")⟩) ⟨Except.error ("nochan")⟩
    ("nochan")).2.1 rfl rfl
  refine ⟨by simpa [cfgURL] using h1, by simpa [cfgURL] using h2⟩

/-- C9: with rabbitmq_enable_tls set, an amqp:// URL is rewritten to
    amqps:// before dialing; with the flag unset the URL is left alone; in
    both cases the constructor dials exactly the resolved URL. -/
theorem enable_tls_url_upgrade (cfg : RConfig) (rest : List Char)
    (dial : List Char → Except String AmqpConn) :
    (cfg.enableTLS = true → cfg.url = ("amqp://").data ++ rest →
       cfgURL cfg = ("amqps://").data ++ rest) ∧
    (cfg.enableTLS = false → cfgURL cfg = cfg.url) ∧
    (RabbitMQNew cfg dial).2.head? = some (.dialed (cfgURL cfg)) := by
  refine ⟨fun ht hu => ?_, fun ht => ?_, ?_⟩
  · simp [cfgURL, ht, hu, isPrefixOf_append_self, List.drop_left]
  · simp [cfgURL, ht]
  · cases hd : dial (cfgURL cfg) with
    | error e => simp [RabbitMQNew, hd]
    | ok conn => cases hc : conn.chanResult <;> simp [RabbitMQNew, hd, hc]

/-- Witness for enable_tls_url_upgrade at a concrete amqp:// URL. -/
theorem enable_tls_url_upgrade_inst :
    cfgURL ⟨false, ("amqp://h").data, true, true⟩ = ("amqps://h").data ∧
    cfgURL ⟨false, ("amqp://h").data, false, true⟩ = ("amqp://h").data := by
  have h1 := (enable_tls_url_upgrade ⟨false, ("amqp://h").data, true, true⟩
    (("h").data) (fun _ => Except.error ("x"))).1 rfl (by decide)
  have h2 := (enable_tls_url_upgrade ⟨false, ("amqp://h").data, false, true⟩
    (("h").data) (fun _ => Except.error ("x"))).2.1 rfl
  exact ⟨by simpa using h1, h2⟩

/-- C10: Close empties every registry and returns nil; a Publish or
    Consume issued afterwards lazily re-creates a fresh handle and
    succeeds (for kafka the re-created writer carries the next unused
    handle id); and on the in-memory backend a consumer registered after
    Close starts from a fresh open channel with an empty buffer, so
    messages buffered but unconsumed before Close are never delivered to
    it. -/
theorem close_resets_registry (k : Kafka) (r : RMQ) (ctx : Ctx)
    (T : String) (b : Msg) (carrier : List (String × String))
    (hc : ctx.canceled = false) :
    (k.Close).1 = none ∧ (k.Close).2.writers = [] ∧
    (k.Close).2.readers = [] ∧
    (r.Close).1 = none ∧ (r.Close).2.queues = [] ∧
    ((k.Close).2.Publish ctx T b (.ok ()) carrier).1 = .ok ∧
    alookup ((k.Close).2.Publish ctx T b (.ok ()) carrier).2.1.writers T =
      some k.nextHandle ∧
    ((r.Close).2.Publish ctx T b).1 = .ok ∧
    (let p := (r.Close).2.Consume ctx T
     (p.2.getChan p.1).buffer = [] ∧ (p.2.getChan p.1).isClosed = false) := by
  refine ⟨rfl, rfl, rfl, rfl, rfl, ?_, ?_, ?_, ?_, ?_⟩
  · simp [Kafka.Close, Kafka.Publish, hc, Kafka.getOrCreateWriter, alookup]
  · simp [Kafka.Close, Kafka.Publish, hc, Kafka.getOrCreateWriter, alookup,
          ainsert]
  · simp [RMQ.Close, RMQ.Publish, hc, RMQ.getOrCreateQueue, alookup,
          RMQ.getChan, RMQ.setChan, getD_append_length]
  · simp [RMQ.Close, RMQ.Consume, RMQ.getOrCreateQueue, alookup, RMQ.getChan,
          getD_append_length]
  · simp [RMQ.Close, RMQ.Consume, RMQ.getOrCreateQueue, alookup, RMQ.getChan,
          getD_append_length]

/-- Witness for close_resets_registry on brokers that used topic t before
    Close, with a message still buffered on the in-memory side. -/
theorem close_resets_registry_inst :
    ((Kafka.mk [(("t"), 0)] [] 1 [("b")] false).Close).2.writers = [] ∧
    (((RMQ.mk [{ buffer := [[5]], isClosed := false }] [(("t"), 0)] false).Close).2.Publish
        ⟨false⟩ ("t") [9]).1 = .ok ∧
    (let p := ((RMQ.mk [{ buffer := [[5]], isClosed := false }] [(("t"), 0)] false).Close).2.Consume
        ⟨false⟩ ("t")
     (p.2.getChan p.1).buffer = []) := by
  have h := close_resets_registry (Kafka.mk [(("t"), 0)] [] 1 [("b")] false)
    (RMQ.mk [{ buffer := [[5]], isClosed := false }] [(("t"), 0)] false)
    ⟨false⟩ ("t") [9] [] rfl
  exact ⟨h.2.1, h.2.2.2.2.2.2.2.1, h.2.2.2.2.2.2.2.2.1⟩

end GoCore
